import Mathlib

/-!
Shallow embedding of the sonrisas-backend persistence layer
(src/app/models.py and the request handlers of src/app/main.py).

Modelling conventions:
* Timestamps (`datetime.now(UTC)`) are modelled as `Nat`; only their order
  matters to the properties below.
* The relational store backing a resource is a `List` of rows in arrival
  (insertion) order; unique constraints are enforced at commit time, which
  is where SQLAlchemy raises `IntegrityError`.
* A handler that raises `HTTPException(status, detail)` is modelled as
  returning `Except.error (ApiError.http status detail)`; an exception the
  handler does not catch (no try/except around `session.commit()`) is
  `ApiError.unhandledIntegrityError`.
* A failed commit is rolled back by the database, so error outcomes carry no
  successor store: the store is unchanged by construction.
* `models.py` line 90 gives both timestamp columns
  `insert_default=lambda: datetime.now(UTC)` (a thunk, evaluated at each
  INSERT), while line 91 gives `updated_at` the extra argument
  `onupdate=datetime.now(UTC)` — a value, evaluated once when models.py is
  imported.  Every UPDATE therefore writes that fixed import-time timestamp.
  The embedding threads `importTime` (the fixed value) and `now` (the clock
  reading at an INSERT) explicitly.
* SQLAlchemy emits an UPDATE only when some attribute's new value differs
  from its committed value; a no-net-change flush leaves the row, and hence
  `updated_at`, untouched.
-/

namespace Sonrisas

/-- Outcome of a request handler that fails.  `http s d` is
`HTTPException(status_code=s, detail=d)`; `unhandledIntegrityError` is a
`sqlalchemy.exc.IntegrityError` that escapes the handler because the commit
is not wrapped in try/except (it surfaces as a 500, not a crafted response). -/
inductive ApiError where
  | http (status : Nat) (detail : String)
  | unhandledIntegrityError
  deriving DecidableEq

/-- Is the error the 409 conflict response the spec calls `ConflictError`? -/
def ApiError.isConflict409 : ApiError → Bool
  | .http 409 _ => true
  | _ => false

/-- Row of table `team_members` (models.py `TeamMember`): unique heading,
image stored as its opaque file id. -/
structure TeamMemberRow where
  id : Nat
  heading : String
  role : String
  description : String
  image : String
  created_at : Nat
  updated_at : Nat
  deriving DecidableEq

/-- Row of table `other_info` (models.py `OtherInfo`): unique name,
nullable value. -/
structure OtherInfoRow where
  id : Nat
  name : String
  value : Option String
  created_at : Nat
  updated_at : Nat
  deriving DecidableEq

/-- Row of table `services` (models.py `Service`): unique heading. -/
structure ServiceRow where
  id : Nat
  heading : String
  description : String
  image : String
  featured : Bool
  created_at : Nat
  updated_at : Nat
  deriving DecidableEq

/-- Row of table `locations` (models.py `Location`). -/
structure LocationRow where
  id : Nat
  heading : String
  address : String
  phones_description : String
  operating_hours : String
  image : String
  google_maps_embed_url : Option String
  created_at : Nat
  updated_at : Nat
  deriving DecidableEq

/-- Row of table `promotions` (models.py `Promotions`): nullable expiry
date, modelled as `Option Nat`. -/
structure PromotionRow where
  id : Nat
  heading : String
  description : String
  image : String
  expire : Option Nat
  created_at : Nat
  updated_at : Nat
  deriving DecidableEq

/-- The three tables the Location↔Service association spans.
`associations` is table `location_service_associations`
(models.py `LocationServiceAssociation`), each element being the composite
primary key `(location_id, service_id)`. -/
structure Store where
  locations : List LocationRow
  services : List ServiceRow
  associations : List (Nat × Nat)
  deriving DecidableEq

/-! ### main.py: team member handlers -/

/-- `POST /team_members/` (main.py `create_team_member`): insert, and a
unique-constraint violation on `heading` raised at commit is caught and
translated to HTTP 409. -/
def create_team_member (store : List TeamMemberRow) (nextId now : Nat)
    (heading role description image : String) :
    Except ApiError (List TeamMemberRow × TeamMemberRow) :=
  if store.any (fun r => r.heading = heading) then
    .error (.http 409 ("Team member with heading '" ++ heading ++ "' already exists."))
  else
    let row : TeamMemberRow :=
      { id := nextId, heading := heading, role := role, description := description,
        image := image, created_at := now, updated_at := now }
    .ok (store ++ [row], row)

/-- Pydantic `TeamMemberUpdate` after validation: every field optional.
`update_team_member` dumps it with `exclude_none=True`, so an explicitly
supplied null and an omitted field are indistinguishable; `Option` suffices. -/
structure TeamMemberUpdate where
  heading : Option String := none
  role : Option String := none
  description : Option String := none
  image : Option String := none
  deriving DecidableEq

/-- The setattr loop of main.py `update_team_member`: fields present in
`model_dump(exclude_none=True)` overwrite, the rest keep the stored value. -/
def applyTeamMemberUpdate (p : TeamMemberUpdate) (r : TeamMemberRow) : TeamMemberRow :=
  { r with
    heading := p.heading.getD r.heading,
    role := p.role.getD r.role,
    description := p.description.getD r.description,
    image := p.image.getD r.image }

/-- `PUT /team_members/{member_id}` (main.py `update_team_member`):
404 when the id is absent; otherwise apply the non-None fields.  If nothing
net-changes, no UPDATE is emitted and the row keeps its timestamps.  A
heading collision with another row raises `IntegrityError` at commit,
caught and translated to 409.  Otherwise the UPDATE fires `onupdate`,
writing the fixed `importTime` into `updated_at` (models.py line 91). -/
def update_team_member (store : List TeamMemberRow) (importTime : Nat)
    (member_id : Nat) (p : TeamMemberUpdate) :
    Except ApiError (List TeamMemberRow × TeamMemberRow) :=
  match store.find? (fun r => r.id = member_id) with
  | none => .error (.http 404 "Team member not found")
  | some member =>
    let updated := applyTeamMemberUpdate p member
    if updated = member then
      .ok (store, member)
    else if store.any (fun r => r.id ≠ member_id ∧ r.heading = updated.heading) then
      .error (.http 409 ("Team member with heading '" ++ updated.heading ++ "' already exists."))
    else
      let updated := { updated with updated_at := importTime }
      .ok (store.map (fun r => if r.id = member_id then updated else r), updated)

/-! ### main.py: other_info handlers -/

/-- `POST /other_info/` (main.py `create_other_info`): insert; a duplicate
`name` raises `IntegrityError` at commit, caught and translated to 409. -/
def create_other_info (store : List OtherInfoRow) (nextId now : Nat)
    (name : String) (value : Option String) :
    Except ApiError (List OtherInfoRow × OtherInfoRow) :=
  if store.any (fun r => r.name = name) then
    .error (.http 409 ("Information with name '" ++ name ++ "' already exists."))
  else
    let row : OtherInfoRow :=
      { id := nextId, name := name, value := value, created_at := now, updated_at := now }
    .ok (store ++ [row], row)

/-- `GET /other_info/{info_name}` (main.py `get_other_info`): select by
name, 404 when absent. -/
def get_other_info (store : List OtherInfoRow) (info_name : String) :
    Except ApiError OtherInfoRow :=
  match store.find? (fun r => r.name = info_name) with
  | none => .error (.http 404 "Information not found")
  | some r => .ok r

/-- Pydantic `OtherInfoUpdate` after validation.  Although its comment in
main.py says "value can be explicitly set to None", the handler dumps it
with `exclude_none=True`, which drops a None value whether it was supplied
explicitly or omitted; `Option` therefore captures exactly what the setattr
loop can see. -/
structure OtherInfoUpdate where
  name : Option String := none
  value : Option String := none
  deriving DecidableEq

/-- The setattr loop of main.py `update_other_info` over
`model_dump(exclude_none=True)`: a None `value` — explicit or omitted — is
not in the dump, so the stored value is kept. -/
def applyOtherInfoUpdate (p : OtherInfoUpdate) (r : OtherInfoRow) : OtherInfoRow :=
  { r with
    name := p.name.getD r.name,
    value := match p.value with
      | none => r.value
      | some v => some v }

/-- `PUT /other_info/{info_name}` (main.py `update_other_info`): select by
name, 404 when absent; apply the non-None fields; on a unique-name
collision the commit raises `IntegrityError`, caught, rolled back and
translated to a 409 whose detail depends on whether `name` was in the
payload; otherwise the UPDATE fires `onupdate` (the fixed import-time
value). -/
def update_other_info (store : List OtherInfoRow) (importTime : Nat)
    (info_name : String) (p : OtherInfoUpdate) :
    Except ApiError (List OtherInfoRow × OtherInfoRow) :=
  match store.find? (fun r => r.name = info_name) with
  | none => .error (.http 404 "Information not found")
  | some info =>
    if applyOtherInfoUpdate p info = info then
      .ok (store, info)
    else if store.any (fun r => r.id ≠ info.id ∧
        r.name = (applyOtherInfoUpdate p info).name) then
      .error (.http 409 (match p.name with
        | some n => "Information with name '" ++ n ++ "' already exists."
        | none => "Data conflict during update."))
    else
      .ok (store.map (fun r => if r.id = info.id then
             { applyOtherInfoUpdate p info with updated_at := importTime } else r),
           { applyOtherInfoUpdate p info with updated_at := importTime })

/-- `DELETE /other_info/{info_name}` (main.py `delete_other_info`): select
by name, 404 when absent, otherwise hard delete of that row (by primary
key). -/
def delete_other_info (store : List OtherInfoRow) (info_name : String) :
    Except ApiError (List OtherInfoRow) :=
  match store.find? (fun r => r.name = info_name) with
  | none => .error (.http 404 "Information not found")
  | some info => .ok (store.filter (fun r => r.id ≠ info.id))

/-! ### main.py: service handlers -/

/-- `POST /services/` (main.py `create_service`): insert.  `Service.heading`
is unique (models.py line 140), so a duplicate heading makes
`session.commit()` raise `IntegrityError` — and unlike `create_team_member`
this handler has no try/except, so the exception escapes untranslated. -/
def create_service (store : List ServiceRow) (nextId now : Nat)
    (heading description image : String) (featured : Bool) :
    Except ApiError (List ServiceRow × ServiceRow) :=
  if store.any (fun r => r.heading = heading) then
    .error .unhandledIntegrityError
  else
    let row : ServiceRow :=
      { id := nextId, heading := heading, description := description,
        image := image, featured := featured, created_at := now, updated_at := now }
    .ok (store ++ [row], row)

/-! ### main.py: promotion handlers -/

/-- Pydantic `PromotionsUpdate`: main.py `update_promotion` dumps it with
`exclude_unset=True`, so an explicitly supplied null is distinguishable from
an omitted field.  The outer `Option` is "was the field set?"; the inner one
is the supplied value (`some none` = explicit null). -/
structure PromotionsUpdate where
  heading : Option (Option String) := none
  description : Option (Option String) := none
  expire : Option (Option Nat) := none
  image : Option (Option String) := none
  deriving DecidableEq

/-- `PUT /promotions/{promotion_id}` (main.py `update_promotion`):
404 when absent.  The line `if promotion_in.expire is None:
promotion_in.expire = None` re-assigns `expire` whenever its value reads as
None (explicit null or omitted); in pydantic an assignment marks the field
as set, so `exclude_unset` then keeps `expire=None` in the dump and the
setattr loop clears the column.  Setting a non-nullable column (`heading`,
`description`, `image`) to null makes the commit fail the NOT NULL
constraint with an `IntegrityError` this handler does not catch.  As
elsewhere, a net change fires `onupdate` with the fixed import-time value. -/
def update_promotion (store : List PromotionRow) (importTime : Nat)
    (promotion_id : Nat) (p : PromotionsUpdate) :
    Except ApiError (List PromotionRow × PromotionRow) :=
  match store.find? (fun r => r.id = promotion_id) with
  | none => .error (.http 404 "Promotion not found")
  | some promotion =>
    let p := if p.expire.getD none = none then { p with expire := some none } else p
    if p.heading = some none ∨ p.description = some none ∨ p.image = some none then
      .error .unhandledIntegrityError
    else
      let updated : PromotionRow := { promotion with
        heading := (p.heading.getD none).getD promotion.heading,
        description := (p.description.getD none).getD promotion.description,
        image := (p.image.getD none).getD promotion.image,
        expire := match p.expire with
          | some v => v
          | none => promotion.expire }
      if updated = promotion then
        .ok (store, promotion)
      else
        let updated := { updated with updated_at := importTime }
        .ok (store.map (fun r => if r.id = promotion_id then updated else r), updated)

/-! ### main.py: location and association handlers -/

/-- `DELETE /locations/{location_id}` (main.py `delete_location`): 404 when
absent; otherwise `session.delete(location)` removes the location row and,
through the `cascade="... delete, delete-orphan"` of
`Location.service_associations` (models.py line 131), every association row
referencing it.  Service rows are not part of that cascade. -/
def delete_location (st : Store) (location_id : Nat) : Except ApiError Store :=
  if (st.locations.find? (fun l => l.id = location_id)).isNone then
    .error (.http 404 "Location not found")
  else
    .ok { st with
      locations := st.locations.filter (fun l => l.id ≠ location_id),
      associations := st.associations.filter (fun pr => pr.1 ≠ location_id) }

/-- `PATCH /locations/{location_id}/services`
(main.py `update_services_of_location`): 404 when the location is absent;
`select(Service).where(Service.id.in_(service_ids))` resolves the ids that
exist (unknown ids simply resolve to nothing); `location.services.update`
is a set-union, so exactly the resolved, not-yet-linked services gain an
association row. -/
def update_services_of_location (st : Store) (location_id : Nat)
    (service_ids : List Nat) : Except ApiError Store :=
  if (st.locations.find? (fun l => l.id = location_id)).isNone then
    .error (.http 404 "Location not found")
  else
    let resolved := st.services.filter (fun s => s.id ∈ service_ids)
    let fresh := resolved.filter (fun s => (location_id, s.id) ∉ st.associations)
    .ok { st with
      associations := st.associations ++ fresh.map (fun s => (location_id, s.id)) }

/-- `DELETE /locations/{location_id}/services/{service_id}`
(main.py `delete_service_of_location`): 404 when the location is absent,
404 when the service is absent, 404 when the pairing is absent; otherwise
`location.services.remove(service)` orphans exactly that association row
and `delete-orphan` deletes it. -/
def delete_service_of_location (st : Store) (location_id service_id : Nat) :
    Except ApiError Store :=
  if (st.locations.find? (fun l => l.id = location_id)).isNone then
    .error (.http 404 "Location not found")
  else if (st.services.find? (fun s => s.id = service_id)).isNone then
    .error (.http 404 "Service not found")
  else if (location_id, service_id) ∉ st.associations then
    .error (.http 404 "Service not found in location")
  else
    .ok { st with
      associations := st.associations.filter (fun pr => pr ≠ (location_id, service_id)) }

/-! ### models.py: ImageFile.public_url -/

/-- models.py `ImageFile.public_url`: pure string formatting over the
configured bucket name and the attachment's opaque `file_id`. -/
def public_url (bucket file_id : String) : String :=
  "https://storage.googleapis.com/" ++ bucket ++ "/" ++ file_id

/-! ### main.py: pydantic string validation -/

/-- Python `str.strip` / pydantic `str_strip_whitespace`: remove leading
and trailing whitespace characters. -/
def pyStrip (s : String) : String :=
  String.mk (((s.toList.dropWhile Char.isWhitespace).reverse.dropWhile
    Char.isWhitespace).reverse)

/-- Pydantic string validation under
`ConfigDict(str_strip_whitespace=True, str_min_length=1)`: strip first,
then reject when fewer than 1 character remains.  This is the
configuration of `HeroBase`, `TeamMemberBase`, `OtherInfoBase`,
`OtherInfoUpdate` and (via merged configs) `LocationIn`/`LocationUpdate`. -/
def validateCleanStr (s : String) : Except String String :=
  let t := pyStrip s
  if t.length ≥ 1 then .ok t else .error "String should have at least 1 character"

/-- `ServiceBase` (main.py lines 340-342) declares no `model_config`, so its
string fields undergo no stripping and no minimum-length check: validation
is the identity.  `PromotionsIn`/`OffersIn` are in the same situation. -/
def serviceBase_validate (heading description : String) :
    Except String (String × String) :=
  .ok (heading, description)

/-- `TeamMemberBase` validation (ConfigDict with both options set):
every required string field routes through `validateCleanStr`. -/
def teamMemberBase_validate (heading role description : String) :
    Except String (String × String × String) :=
  match validateCleanStr heading, validateCleanStr role, validateCleanStr description with
  | .ok h, .ok r, .ok d => .ok (h, r, d)
  | .error e, _, _ => .error e
  | _, .error e, _ => .error e
  | _, _, .error e => .error e

/-! ### main.py: list endpoints (ORDER BY created_at DESC) -/

/-- Comparison used by every list endpoint's
`order_by(<Model>.created_at.desc())`: row `a` may precede row `b` when
`a.created_at ≥ b.created_at`. -/
def createdDesc (a b : OtherInfoRow) : Prop := b.created_at ≤ a.created_at

instance : DecidableRel createdDesc := fun a b => Nat.decLe b.created_at a.created_at

instance : IsTotal OtherInfoRow createdDesc :=
  ⟨fun a b => Nat.le_total b.created_at a.created_at⟩

instance : IsTrans OtherInfoRow createdDesc :=
  ⟨fun _ _ _ h1 h2 => Nat.le_trans h2 h1⟩

/-- Semantics of `GET /other_info/` (main.py `get_all_other_info`, and of
every other list endpoint, which differ only in the row type): the query
`select(M).order_by(M.created_at.desc())` obliges the database to return
some permutation of all rows that is non-increasing in `created_at`.  SQL
leaves the relative order of rows with equal `created_at` unspecified — the
query has no secondary sort key — so the endpoint is modelled as this
relation between the arrival-ordered store and an admissible result. -/
def orderByCreatedDescResult (store result : List OtherInfoRow) : Prop :=
  store.Perm result ∧ result.Sorted createdDesc

/-- Modelled from the spec's words, for comparison with
`orderByCreatedDescResult`: the spec reads the list endpoints as returning
the stable descending sort of the arrival-ordered store ("ties broken by
arrival order — stable"). -/
def listNewestFirstStable (store : List OtherInfoRow) : List OtherInfoRow :=
  store.insertionSort createdDesc

/-! ### Generic helpers -/

instance {ε α : Type} [DecidableEq ε] [DecidableEq α] : DecidableEq (Except ε α) := fun a b =>
  match a, b with
  | .error e, .error f => decidable_of_iff (e = f) (by simp)
  | .error _, .ok _ => .isFalse fun h => Except.noConfusion h
  | .ok _, .error _ => .isFalse fun h => Except.noConfusion h
  | .ok u, .ok v => decidable_of_iff (u = v) (by simp)

/-- `find?` returns the unique element satisfying the predicate when there
is exactly one. -/
theorem find?_eq_some_of_unique {α : Type} {l : List α} {p : α → Bool} {u : α}
    (hu : u ∈ l) (hpu : p u = true) (huniq : ∀ x ∈ l, p x = true → x = u) :
    l.find? p = some u := by
  induction l with
  | nil => cases hu
  | cons a l ih =>
    by_cases hpa : p a = true
    · have ha : a = u := huniq a (List.mem_cons_self a l) hpa
      rw [List.find?_cons_of_pos _ hpa, ha]
    · have hne : u ≠ a := fun h => hpa (h ▸ hpu)
      have hu' : u ∈ l := by
        rcases List.mem_cons.mp hu with h | h
        · exact absurd h hne
        · exact h
      rw [List.find?_cons_of_neg _ hpa]
      exact ih hu' (fun x hx hpx => huniq x (List.mem_cons_of_mem a hx) hpx)

/-- Did the handler succeed (no HTTPException, no escaped exception)? -/
def isOkResult {ε α : Type} : Except ε α → Bool
  | .ok _ => true
  | .error _ => false

/-! ### Claim theorems -/

/-- Claim C8: `public_url` is a pure function of the configured bucket name
and the attachment's opaque file identifier; with bucket "assets-bucket"
and file id "abc123" it returns exactly
"https://storage.googleapis.com/assets-bucket/abc123", and — being a
function of its two arguments alone — any number of repeated calls all
return that same URL. -/
theorem c8_public_url_deterministic :
    public_url "assets-bucket" "abc123" =
      "https://storage.googleapis.com/assets-bucket/abc123" ∧
    ∀ (bucket fid : String) (n : Nat),
      (List.replicate n (public_url bucket fid)).all
        (fun u => u = public_url bucket fid) = true := by
  refine ⟨rfl, fun bucket fid n => ?_⟩
  rw [List.all_eq_true]
  intro u hu
  simpa using (List.eq_of_mem_replicate hu)

/-- Claim C2, evaluated at the failing input (code bug): the stored row
OtherInfo(id=1, name="tiktok", value="x") is updated by a request whose
payload carries value=None — which is what an explicit `{"value": null}`
body validates to.  main.py line 194 documents the intent "value can be
explicitly set to None", but `update_other_info` dumps the payload with
`exclude_none=True`, which silently drops the null: the handler returns
200 with value still "x" instead of clearing it.  The second conjunct
shows the converse slip in `update_promotion`: a request that OMITS every
field still clears a stored expiry date, because the handler's
`promotion_in.expire = None` reassignment marks the field as set before
the `exclude_unset=True` dump. -/
theorem c2_explicit_null_is_dropped :
    update_other_info
        [{ id := 1, name := "tiktok", value := some "x", created_at := 0, updated_at := 0 }]
        0 "tiktok" { name := none, value := none } =
      .ok ([{ id := 1, name := "tiktok", value := some "x", created_at := 0, updated_at := 0 }],
        { id := 1, name := "tiktok", value := some "x", created_at := 0, updated_at := 0 }) ∧
    update_promotion
        [{ id := 1, heading := "H", description := "D", image := "I", expire := some 30,
           created_at := 3, updated_at := 3 }]
        0 1 {} =
      .ok ([{ id := 1, heading := "H", description := "D", image := "I", expire := none,
              created_at := 3, updated_at := 0 }],
        { id := 1, heading := "H", description := "D", image := "I", expire := none,
          created_at := 3, updated_at := 0 }) := ⟨rfl, rfl⟩

/-- Claim C4, evaluated at the failing input (code bug): models.py was
imported at time 0, so the `onupdate=datetime.now(UTC)` argument of
`updated_at` (models.py line 91) captured the fixed value 0 — unlike
`insert_default=lambda: datetime.now(UTC)` on line 90, which is a thunk.
A TeamMember(heading="A", role="B", description="C") created at time 10
and then updated with only role="B2" keeps heading and description (the
frame part of the claim holds) but gets updated_at = 0: the import-time
constant, strictly LESS than the prior value 10, not strictly greater as
the claim requires. -/
theorem c4_updated_at_not_refreshed_forward :
    update_team_member
        [{ id := 1, heading := "A", role := "B", description := "C", image := "img",
           created_at := 10, updated_at := 10 }]
        0 1 { role := some "B2" } =
      .ok ([{ id := 1, heading := "A", role := "B2", description := "C", image := "img",
              created_at := 10, updated_at := 0 }],
        { id := 1, heading := "A", role := "B2", description := "C", image := "img",
          created_at := 10, updated_at := 0 }) ∧
    ¬ (10 : Nat) < 0 := ⟨rfl, by decide⟩

/-- Claim C1 counterexample: with Service(heading="Cleaning") stored,
creating a second Service with the same heading does fail — the unique
constraint rejects the commit — but `create_service` (main.py line 370)
wraps its commit in no try/except, so what escapes is the raw
IntegrityError, not the 409 ConflictError response the claim requires for
all three resources. -/
theorem c1_service_duplicate_not_conflict409 :
    create_service
        [{ id := 1, heading := "Cleaning", description := "d", image := "i",
           featured := false, created_at := 5, updated_at := 5 }]
        2 6 "Cleaning" "d2" "i2" false = .error .unhandledIntegrityError ∧
    ApiError.unhandledIntegrityError.isConflict409 = false := ⟨rfl, rfl⟩

/-- When no stored row carries key `k` and `row` does, the insert is the
first and only row with that key: the pre-insert duplicate scan is false,
the post-insert scan is true, and exactly one row with key `k` exists. -/
theorem unique_key_insert {α : Type} (key : α → String) (store : List α)
    (k : String) (row : α) (hstore : ∀ x ∈ store, key x ≠ k) (hrow : key row = k) :
    store.any (fun x => key x = k) = false ∧
    (store ++ [row]).any (fun x => key x = k) = true ∧
    ((store ++ [row]).filter (fun x => key x = k)).length = 1 := by
  have h1 : store.any (fun x => key x = k) = false := by
    rw [List.any_eq_false]
    intro x hx
    simpa using hstore x hx
  have h2 : (store ++ [row]).any (fun x => key x = k) = true := by
    rw [List.any_eq_true]
    exact ⟨row, by simp, by simpa using hrow⟩
  have h3 : store.filter (fun x => key x = k) = [] := by
    rw [List.filter_eq_nil_iff]
    intro x hx
    simpa using hstore x hx
  refine ⟨h1, h2, ?_⟩
  rw [List.filter_append, h3]
  simp [hrow]

/-- Claim C1 (amended): for each uniquely-keyed resource, when no stored
row carries the key, the first create succeeds and appends the new row,
the second create with the same key fails — leaving the store unchanged
(error outcomes in this embedding carry no successor store, mirroring the
transactional rollback) and exactly one row with that key in place.  For
TeamMember (heading) and OtherInfo (name) the failure is the 409
ConflictError; for Service (heading) the unique constraint also rejects
the duplicate atomically, but `create_service` has no IntegrityError
handler, so the failure escapes as the raw IntegrityError rather than a
409 ConflictError. -/
theorem c1_unique_create_amended :
    (∀ (store : List TeamMemberRow) (n1 t1 n2 t2 : Nat) (hd r d i r2 d2 i2 : String),
      (∀ x ∈ store, x.heading ≠ hd) →
      create_team_member store n1 t1 hd r d i =
        .ok (store ++ [{ id := n1, heading := hd, role := r, description := d, image := i,
                         created_at := t1, updated_at := t1 }],
             { id := n1, heading := hd, role := r, description := d, image := i,
               created_at := t1, updated_at := t1 }) ∧
      create_team_member
          (store ++ [{ id := n1, heading := hd, role := r, description := d, image := i,
                       created_at := t1, updated_at := t1 }]) n2 t2 hd r2 d2 i2 =
        .error (.http 409 ("Team member with heading '" ++ hd ++ "' already exists.")) ∧
      (((store ++ [({ id := n1, heading := hd, role := r, description := d, image := i,
                      created_at := t1, updated_at := t1 } : TeamMemberRow)]).filter
          (fun x => x.heading = hd)).length = 1)) ∧
    (∀ (store : List OtherInfoRow) (n1 t1 n2 t2 : Nat) (nm : String) (v v2 : Option String),
      (∀ x ∈ store, x.name ≠ nm) →
      create_other_info store n1 t1 nm v =
        .ok (store ++ [{ id := n1, name := nm, value := v,
                         created_at := t1, updated_at := t1 }],
             { id := n1, name := nm, value := v, created_at := t1, updated_at := t1 }) ∧
      create_other_info
          (store ++ [{ id := n1, name := nm, value := v,
                       created_at := t1, updated_at := t1 }]) n2 t2 nm v2 =
        .error (.http 409 ("Information with name '" ++ nm ++ "' already exists.")) ∧
      (((store ++ [({ id := n1, name := nm, value := v,
                      created_at := t1, updated_at := t1 } : OtherInfoRow)]).filter
          (fun x => x.name = nm)).length = 1)) ∧
    (∀ (store : List ServiceRow) (n1 t1 n2 t2 : Nat) (hd d i d2 i2 : String) (f f2 : Bool),
      (∀ x ∈ store, x.heading ≠ hd) →
      create_service store n1 t1 hd d i f =
        .ok (store ++ [{ id := n1, heading := hd, description := d, image := i,
                         featured := f, created_at := t1, updated_at := t1 }],
             { id := n1, heading := hd, description := d, image := i, featured := f,
               created_at := t1, updated_at := t1 }) ∧
      create_service
          (store ++ [{ id := n1, heading := hd, description := d, image := i,
                       featured := f, created_at := t1, updated_at := t1 }]) n2 t2 hd d2 i2 f2 =
        .error .unhandledIntegrityError ∧
      (((store ++ [({ id := n1, heading := hd, description := d, image := i,
                      featured := f, created_at := t1, updated_at := t1 } : ServiceRow)]).filter
          (fun x => x.heading = hd)).length = 1)) := by
  refine ⟨?_, ?_, ?_⟩
  · intro store n1 t1 n2 t2 hd r d i r2 d2 i2 hstore
    obtain ⟨h1, h2, h3⟩ :=
      unique_key_insert TeamMemberRow.heading store hd
        { id := n1, heading := hd, role := r, description := d, image := i,
          created_at := t1, updated_at := t1 } hstore rfl
    exact ⟨by simp [create_team_member, h1], by simp [create_team_member, h2], h3⟩
  · intro store n1 t1 n2 t2 nm v v2 hstore
    obtain ⟨h1, h2, h3⟩ :=
      unique_key_insert OtherInfoRow.name store nm
        { id := n1, name := nm, value := v, created_at := t1, updated_at := t1 } hstore rfl
    exact ⟨by simp [create_other_info, h1], by simp [create_other_info, h2], h3⟩
  · intro store n1 t1 n2 t2 hd d i d2 i2 f f2 hstore
    obtain ⟨h1, h2, h3⟩ :=
      unique_key_insert ServiceRow.heading store hd
        { id := n1, heading := hd, description := d, image := i, featured := f,
          created_at := t1, updated_at := t1 } hstore rfl
    exact ⟨by simp [create_service, h1], by simp [create_service, h2], h3⟩

/-- Closed witness for the amended C1: on initially empty stores, after one
create per resource, the duplicate create fails with the stated error. -/
theorem c1_unique_create_amended_witness :
    create_team_member
        ([] ++ [{ id := 1, heading := "Ana", role := "R", description := "D", image := "F",
                  created_at := 5, updated_at := 5 }]) 2 6 "Ana" "R2" "D2" "F2" =
      .error (.http 409 ("Team member with heading '" ++ "Ana" ++ "' already exists.")) ∧
    create_other_info
        ([] ++ [{ id := 1, name := "tiktok", value := some "x",
                  created_at := 5, updated_at := 5 }]) 2 6 "tiktok" none =
      .error (.http 409 ("Information with name '" ++ "tiktok" ++ "' already exists.")) ∧
    create_service
        ([] ++ [{ id := 1, heading := "Cleaning", description := "D", image := "F",
                  featured := false, created_at := 5, updated_at := 5 }])
        2 6 "Cleaning" "D2" "F2" true =
      .error .unhandledIntegrityError :=
  ⟨(c1_unique_create_amended.1 [] 1 5 2 6 "Ana" "R" "D" "F" "R2" "D2" "F2" (by simp)).2.1,
   (c1_unique_create_amended.2.1 [] 1 5 2 6 "tiktok" (some "x") none (by simp)).2.1,
   (c1_unique_create_amended.2.2 [] 1 5 2 6 "Cleaning" "D" "F" "D2" "F2" false true
      (by simp)).2.1⟩

/-- Claim C7 counterexample: `ServiceBase` (main.py line 340) declares no
model_config, so the Service create input accepts an empty required
heading — and a whitespace-padded one unstripped — and `create_service`
stores it as given: the project-wide claim fails for Service. -/
theorem c7_service_accepts_empty_heading :
    serviceBase_validate "" "desc" = .ok ("", "desc") ∧
    serviceBase_validate "  spa  " "desc" = .ok ("  spa  ", "desc") ∧
    create_service [] 1 0 "" "desc" "img" false =
      .ok ([{ id := 1, heading := "", description := "desc", image := "img",
              featured := false, created_at := 0, updated_at := 0 }],
           { id := 1, heading := "", description := "desc", image := "img",
             featured := false, created_at := 0, updated_at := 0 }) := ⟨rfl, rfl, rfl⟩

/-- Claim C7 (amended): the whitespace-strip-and-reject-empty rule holds
for the models that configure `str_strip_whitespace=True` and
`str_min_length=1` — Hero, TeamMember, OtherInfo and the Location input
models, whose required string fields all route through `validateCleanStr`
— but not project-wide: `ServiceBase`, `PromotionsIn` and `OffersIn` set
no such config (see the counterexample).  Where the rule applies, every
accepted string is the stripped input and never empty, and a
whitespace-only input is rejected before any store mutation. -/
theorem c7_clean_str_amended (s hd r d : String) :
    (∀ t, validateCleanStr s = .ok t → t = pyStrip s ∧ t ≠ "") ∧
    (pyStrip s = "" → validateCleanStr s = .error "String should have at least 1 character") ∧
    (∀ h2 r2 d2, teamMemberBase_validate hd r d = .ok (h2, r2, d2) →
      h2 = pyStrip hd ∧ h2 ≠ "" ∧ r2 = pyStrip r ∧ r2 ≠ "" ∧ d2 = pyStrip d ∧ d2 ≠ "") := by
  have key : ∀ (u : String) (t : String), validateCleanStr u = .ok t → t = pyStrip u ∧ t ≠ "" := by
    intro u t h
    unfold validateCleanStr at h
    by_cases hc : (pyStrip u).length ≥ 1
    · rw [if_pos hc] at h
      cases h
      refine ⟨rfl, ?_⟩
      intro he
      rw [he] at hc
      simp at hc
    · rw [if_neg hc] at h
      cases h
  refine ⟨key s, ?_, ?_⟩
  · intro he
    unfold validateCleanStr
    rw [he]
    simp
  · intro h2 r2 d2 h
    unfold teamMemberBase_validate at h
    cases hh : validateCleanStr hd with
    | error e =>
      cases hr : validateCleanStr r <;> cases hdd : validateCleanStr d <;>
        rw [hh, hr, hdd] at h <;> cases h
    | ok th =>
      cases hr : validateCleanStr r with
      | error e =>
        cases hdd : validateCleanStr d <;> rw [hh, hr, hdd] at h <;> cases h
      | ok tr =>
        cases hdd : validateCleanStr d with
        | error e => rw [hh, hr, hdd] at h; cases h
        | ok td =>
          rw [hh, hr, hdd] at h
          simp only [Except.ok.injEq, Prod.mk.injEq] at h
          obtain ⟨e1, e2, e3⟩ := h
          subst e1
          subst e2
          subst e3
          obtain ⟨k1, k2⟩ := key hd th hh
          obtain ⟨k3, k4⟩ := key r tr hr
          obtain ⟨k5, k6⟩ := key d td hdd
          exact ⟨k1, k2, k3, k4, k5, k6⟩

/-- Closed witness for the amended C7 at satisfiable hypotheses:
whitespace-padded inputs validate to their stripped, non-empty forms. -/
theorem c7_clean_str_amended_witness :
    ("Ana" = pyStrip "  Ana " ∧ "Ana" ≠ "" ∧ "Dentist" = pyStrip " Dentist" ∧ "Dentist" ≠ "" ∧
      "Bio" = pyStrip "Bio " ∧ "Bio" ≠ "") ∧
    validateCleanStr "   " = .error "String should have at least 1 character" :=
  ⟨(c7_clean_str_amended "x" "  Ana " " Dentist" "Bio ").2.2 "Ana" "Dentist" "Bio" (by rfl),
   (c7_clean_str_amended "   " "a" "b" "c").2.1 (by rfl)⟩

/-- Claim C9 counterexample: rows with id 1 and id 2 arrive in that order
with equal created_at = 7.  The reversed sequence is an admissible answer
to ORDER BY created_at DESC — it contains all rows and is non-increasing
in created_at — yet it is not the stable newest-first list the claim
promises (ties in arrival order). -/
theorem c9_tie_order_not_guaranteed :
    orderByCreatedDescResult
      [{ id := 1, name := "a", value := none, created_at := 7, updated_at := 7 },
       { id := 2, name := "b", value := none, created_at := 7, updated_at := 7 }]
      [{ id := 2, name := "b", value := none, created_at := 7, updated_at := 7 },
       { id := 1, name := "a", value := none, created_at := 7, updated_at := 7 }] ∧
    [({ id := 2, name := "b", value := none, created_at := 7, updated_at := 7 } : OtherInfoRow),
     { id := 1, name := "a", value := none, created_at := 7, updated_at := 7 }] ≠
      listNewestFirstStable
        [{ id := 1, name := "a", value := none, created_at := 7, updated_at := 7 },
         { id := 2, name := "b", value := none, created_at := 7, updated_at := 7 }] := by
  refine ⟨⟨?_, ?_⟩, ?_⟩
  · exact List.Perm.swap _ _ _
  · unfold createdDesc
    decide
  · unfold listNewestFirstStable createdDesc
    decide

/-- Claim C9 (amended): every list endpoint returns all stored rows in an
order that is non-increasing in created_at; the stable newest-first list
is one admissible result, but ORDER BY with no secondary sort key does not
determine the relative order of rows with equal created_at, so the tie
rule is not guaranteed (see the counterexample).  Conjuncts: the stable
sort is itself admissible; any admissible result has exactly the stored
rows; any admissible result is non-increasing in created_at. -/
theorem c9_list_newest_first_amended (store result : List OtherInfoRow) :
    orderByCreatedDescResult store (listNewestFirstStable store) ∧
    (orderByCreatedDescResult store result → ∀ r, r ∈ result ↔ r ∈ store) ∧
    (orderByCreatedDescResult store result → result.Sorted createdDesc) := by
  refine ⟨⟨?_, ?_⟩, ?_, ?_⟩
  · exact (List.perm_insertionSort createdDesc store).symm
  · exact List.sorted_insertionSort createdDesc store
  · intro h r
    exact h.1.mem_iff.symm
  · exact fun h => h.2

/-- Closed witness for the amended C9: a two-row store with distinct
created_at values, and the admissible descending result. -/
theorem c9_list_newest_first_amended_witness :
    orderByCreatedDescResult
      [{ id := 1, name := "a", value := none, created_at := 3, updated_at := 3 },
       { id := 2, name := "b", value := none, created_at := 9, updated_at := 9 }]
      (listNewestFirstStable
        [{ id := 1, name := "a", value := none, created_at := 3, updated_at := 3 },
         { id := 2, name := "b", value := none, created_at := 9, updated_at := 9 }]) ∧
    (({ id := 2, name := "b", value := none, created_at := 9, updated_at := 9 } : OtherInfoRow) ∈
        ([{ id := 2, name := "b", value := none, created_at := 9, updated_at := 9 },
          { id := 1, name := "a", value := none, created_at := 3, updated_at := 3 }] :
          List OtherInfoRow) ↔
      ({ id := 2, name := "b", value := none, created_at := 9, updated_at := 9 } : OtherInfoRow) ∈
        ([{ id := 1, name := "a", value := none, created_at := 3, updated_at := 3 },
          { id := 2, name := "b", value := none, created_at := 9, updated_at := 9 }] :
          List OtherInfoRow)) :=
  ⟨(c9_list_newest_first_amended
      [{ id := 1, name := "a", value := none, created_at := 3, updated_at := 3 },
       { id := 2, name := "b", value := none, created_at := 9, updated_at := 9 }] []).1,
   (c9_list_newest_first_amended
      [{ id := 1, name := "a", value := none, created_at := 3, updated_at := 3 },
       { id := 2, name := "b", value := none, created_at := 9, updated_at := 9 }]
      [{ id := 2, name := "b", value := none, created_at := 9, updated_at := 9 },
       { id := 1, name := "a", value := none, created_at := 3, updated_at := 3 }]).2.1
     ⟨List.Perm.swap _ _ _, by unfold createdDesc; decide⟩
     { id := 2, name := "b", value := none, created_at := 9, updated_at := 9 }⟩

/-- Claim C5: a successful DELETE of a Location leaves the Service table
untouched, keeps exactly the other locations, and keeps exactly the
association rows that do not reference the deleted location — every
association row of the deleted location is gone. -/
theorem c5_delete_location_cascade (st st' : Store) (lid : Nat)
    (h : delete_location st lid = .ok st') :
    st'.services = st.services ∧
    (∀ l, l ∈ st'.locations ↔ l ∈ st.locations ∧ l.id ≠ lid) ∧
    (∀ pr, pr ∈ st'.associations ↔ pr ∈ st.associations ∧ pr.1 ≠ lid) := by
  unfold delete_location at h
  by_cases hc : (st.locations.find? (fun l => l.id = lid)).isNone
  · rw [if_pos hc] at h
    cases h
  · rw [if_neg hc] at h
    cases h
    refine ⟨rfl, ?_, ?_⟩
    · intro l
      simp [List.mem_filter]
    · intro pr
      simp [List.mem_filter]

/-- Closed witness for C5: a location linked to two services is deleted;
both association rows disappear, both services survive. -/
theorem c5_delete_location_cascade_witness :
    ({ locations := [],
       services :=
         [{ id := 1, heading := "S1", description := "d1", image := "i1", featured := false,
            created_at := 1, updated_at := 1 },
          { id := 2, heading := "S2", description := "d2", image := "i2", featured := true,
            created_at := 2, updated_at := 2 }],
       associations := [] } : Store).services =
      ({ locations :=
           [{ id := 10, heading := "L", address := "A", phones_description := "P",
              operating_hours := "O", image := "I", google_maps_embed_url := none,
              created_at := 0, updated_at := 0 }],
         services :=
           [{ id := 1, heading := "S1", description := "d1", image := "i1", featured := false,
              created_at := 1, updated_at := 1 },
            { id := 2, heading := "S2", description := "d2", image := "i2", featured := true,
              created_at := 2, updated_at := 2 }],
         associations := [(10, 1), (10, 2)] } : Store).services ∧
    (((10 : Nat), (1 : Nat)) ∈
        ({ locations := [],
           services :=
             [{ id := 1, heading := "S1", description := "d1", image := "i1", featured := false,
                created_at := 1, updated_at := 1 },
              { id := 2, heading := "S2", description := "d2", image := "i2", featured := true,
                created_at := 2, updated_at := 2 }],
           associations := [] } : Store).associations ↔
      ((10 : Nat), (1 : Nat)) ∈
          ({ locations :=
               [{ id := 10, heading := "L", address := "A", phones_description := "P",
                  operating_hours := "O", image := "I", google_maps_embed_url := none,
                  created_at := 0, updated_at := 0 }],
             services :=
               [{ id := 1, heading := "S1", description := "d1", image := "i1", featured := false,
                  created_at := 1, updated_at := 1 },
                { id := 2, heading := "S2", description := "d2", image := "i2", featured := true,
                  created_at := 2, updated_at := 2 }],
             associations := [(10, 1), (10, 2)] } : Store).associations ∧ (10 : Nat) ≠ 10) := by
  have h := c5_delete_location_cascade
    { locations :=
        [{ id := 10, heading := "L", address := "A", phones_description := "P",
           operating_hours := "O", image := "I", google_maps_embed_url := none,
           created_at := 0, updated_at := 0 }],
      services :=
        [{ id := 1, heading := "S1", description := "d1", image := "i1", featured := false,
           created_at := 1, updated_at := 1 },
         { id := 2, heading := "S2", description := "d2", image := "i2", featured := true,
           created_at := 2, updated_at := 2 }],
      associations := [(10, 1), (10, 2)] }
    { locations := [],
      services :=
        [{ id := 1, heading := "S1", description := "d1", image := "i1", featured := false,
           created_at := 1, updated_at := 1 },
         { id := 2, heading := "S2", description := "d2", image := "i2", featured := true,
           created_at := 2, updated_at := 2 }],
      associations := [] }
    10 (by rfl)
  exact ⟨h.1, h.2.2 (10, 1)⟩

/-! ### Concrete fixtures used by witnesses -/

/-- Fixture: service id 1. -/
def exService1 : ServiceRow :=
  { id := 1, heading := "Whitening", description := "d1", image := "i1", featured := false,
    created_at := 1, updated_at := 1 }

/-- Fixture: service id 2. -/
def exService2 : ServiceRow :=
  { id := 2, heading := "Implants", description := "d2", image := "i2", featured := true,
    created_at := 2, updated_at := 2 }

/-- Fixture: service id 3 (never associated). -/
def exService3 : ServiceRow :=
  { id := 3, heading := "Braces", description := "d3", image := "i3", featured := false,
    created_at := 3, updated_at := 3 }

/-- Fixture: location id 10. -/
def exLocation : LocationRow :=
  { id := 10, heading := "L", address := "A", phones_description := "P",
    operating_hours := "O", image := "I", google_maps_embed_url := none,
    created_at := 0, updated_at := 0 }

/-- Fixture: location 10 linked to service 1 only; services 1, 2, 3 exist. -/
def exStore : Store :=
  { locations := [exLocation],
    services := [exService1, exService2, exService3],
    associations := [(10, 1)] }

/-- Claim C6: the single-removal endpoint fails 404 when the location is
absent, 404 when the service is absent, 404 when the specific pairing is
absent; a success implies the pairing existed and the successor store
keeps locations and services unchanged and the associations minus exactly
that pairing. -/
theorem c6_remove_one (st : Store) (lid sid : Nat) :
    ((∀ l ∈ st.locations, l.id ≠ lid) →
      delete_service_of_location st lid sid = .error (.http 404 "Location not found")) ∧
    ((∃ l ∈ st.locations, l.id = lid) → (∀ s ∈ st.services, s.id ≠ sid) →
      delete_service_of_location st lid sid = .error (.http 404 "Service not found")) ∧
    ((∃ l ∈ st.locations, l.id = lid) → (∃ s ∈ st.services, s.id = sid) →
      (lid, sid) ∉ st.associations →
      delete_service_of_location st lid sid =
        .error (.http 404 "Service not found in location")) ∧
    (∀ st', delete_service_of_location st lid sid = .ok st' →
      st'.locations = st.locations ∧ st'.services = st.services ∧
      (lid, sid) ∈ st.associations ∧
      (∀ pr, pr ∈ st'.associations ↔ pr ∈ st.associations ∧ pr ≠ (lid, sid))) := by
  unfold delete_service_of_location
  refine ⟨?_, ?_, ?_, ?_⟩
  · intro h1
    have habs : st.locations.find? (fun l => l.id = lid) = none := by
      rw [List.find?_eq_none]
      intro a ha
      simpa using h1 a ha
    rw [habs]
    rfl
  · intro hex h2
    have hsomeL : (st.locations.find? (fun l => l.id = lid)).isSome = true := by
      rw [List.find?_isSome]
      simpa using hex
    obtain ⟨lv, hlv⟩ := Option.isSome_iff_exists.mp hsomeL
    have habs : st.services.find? (fun s => s.id = sid) = none := by
      rw [List.find?_eq_none]
      intro a ha
      simpa using h2 a ha
    rw [hlv, habs]
    simp
  · intro hex1 hex2 hnm
    have hsomeL : (st.locations.find? (fun l => l.id = lid)).isSome = true := by
      rw [List.find?_isSome]
      simpa using hex1
    obtain ⟨lv, hlv⟩ := Option.isSome_iff_exists.mp hsomeL
    have hsomeS : (st.services.find? (fun s => s.id = sid)).isSome = true := by
      rw [List.find?_isSome]
      simpa using hex2
    obtain ⟨sv, hsv⟩ := Option.isSome_iff_exists.mp hsomeS
    rw [hlv, hsv]
    simp [hnm]
  · intro st' h
    by_cases hc1 : (st.locations.find? (fun l => l.id = lid)).isNone = true
    · rw [if_pos hc1] at h
      cases h
    · rw [if_neg hc1] at h
      by_cases hc2 : (st.services.find? (fun s => s.id = sid)).isNone = true
      · rw [if_pos hc2] at h
        cases h
      · rw [if_neg hc2] at h
        by_cases hc3 : (lid, sid) ∉ st.associations
        · rw [if_pos hc3] at h
          cases h
        · rw [if_neg hc3] at h
          cases h
          refine ⟨rfl, rfl, not_not.mp hc3, ?_⟩
          intro pr
          simp [List.mem_filter]

/-- Closed witness for C6: on the fixture store, the three 404 cases fire
for an unknown location, an unknown service, and an unlinked service; and
removing the linked pairing (10, 1) keeps services intact while (10, 1)
leaves the associations. -/
theorem c6_remove_one_witness :
    delete_service_of_location exStore 99 1 = .error (.http 404 "Location not found") ∧
    delete_service_of_location exStore 10 99 = .error (.http 404 "Service not found") ∧
    delete_service_of_location exStore 10 3 =
      .error (.http 404 "Service not found in location") ∧
    (((10 : Nat), (1 : Nat)) ∈
        ({ locations := [exLocation], services := [exService1, exService2, exService3],
           associations := [] } : Store).associations ↔
      ((10 : Nat), (1 : Nat)) ∈ exStore.associations ∧ ((10 : Nat), (1 : Nat)) ≠ (10, 1)) := by
  refine ⟨?_, ?_, ?_, ?_⟩
  · exact (c6_remove_one exStore 99 1).1 (by decide)
  · exact (c6_remove_one exStore 10 99).2.1 (by decide) (by decide)
  · exact (c6_remove_one exStore 10 3).2.2.1 (by decide) (by decide) (by decide)
  · exact ((c6_remove_one exStore 10 1).2.2.2
      { locations := [exLocation], services := [exService1, exService2, exService3],
        associations := [] } (by rfl)).2.2.2 (10, 1)

/-- Claim C3: a successful bulk-add (PATCH of a location's services) keeps
locations and services unchanged and makes the association rows exactly
the old ones plus one row per supplied id that resolves to an existing
Service — ids resolving to nothing contribute nothing; and whenever the
location exists, the operation succeeds for every id list (unknown ids
never raise an error). -/
theorem c3_bulk_add_is_union (st : Store) (lid : Nat) (sids : List Nat) (st' : Store)
    (h : update_services_of_location st lid sids = .ok st') :
    st'.locations = st.locations ∧ st'.services = st.services ∧
    (∀ pr : Nat × Nat, pr ∈ st'.associations ↔
      pr ∈ st.associations ∨
        (pr.1 = lid ∧ pr.2 ∈ sids ∧ ∃ s ∈ st.services, s.id = pr.2)) ∧
    (∀ sids2 : List Nat, isOkResult (update_services_of_location st lid sids2) = true) := by
  unfold update_services_of_location at h ⊢
  by_cases hc : (st.locations.find? (fun l => l.id = lid)).isNone = true
  · rw [if_pos hc] at h
    cases h
  · rw [if_neg hc] at h
    cases h
    refine ⟨rfl, rfl, ?_, ?_⟩
    · intro pr
      simp only [List.mem_append, List.mem_map, List.mem_filter, decide_eq_true_eq]
      constructor
      · rintro (hmem | ⟨a, ⟨⟨ha, hain⟩, hnot⟩, heq⟩)
        · exact Or.inl hmem
        · cases heq
          exact Or.inr ⟨rfl, hain, a, ha, rfl⟩
      · rintro (hmem | ⟨h1, h2, s, hs, hsid⟩)
        · exact Or.inl hmem
        · by_cases hmem2 : pr ∈ st.associations
          · exact Or.inl hmem2
          · have hpr : (lid, s.id) = pr := by
              rw [hsid, ← h1]
            refine Or.inr ⟨s, ⟨⟨hs, ?_⟩, ?_⟩, hpr⟩
            · rw [hsid]
              exact h2
            · rw [hpr]
              exact hmem2
    · intro sids2
      rw [if_neg hc]
      rfl

/-- Closed witness for C3: the fixture location is linked to service 1
only; bulk-adding [2, 3, 99] — 99 matching no Service — succeeds, and the
pre-existing pairing (10, 1) is still among the resulting associations
[(10,1), (10,2), (10,3)]: the union, not a replacement. -/
theorem c3_bulk_add_is_union_witness :
    (((10 : Nat), (1 : Nat)) ∈
        ({ locations := [exLocation], services := [exService1, exService2, exService3],
           associations := [(10, 1), (10, 2), (10, 3)] } : Store).associations ↔
      ((10 : Nat), (1 : Nat)) ∈ exStore.associations ∨
        ((10 : Nat) = 10 ∧ (1 : Nat) ∈ [2, 3, 99] ∧
          ∃ s ∈ exStore.services, s.id = 1)) ∧
    isOkResult (update_services_of_location exStore 10 [2, 3, 99]) = true := by
  have h := c3_bulk_add_is_union exStore 10 [2, 3, 99]
    { locations := [exLocation], services := [exService1, exService2, exService3],
      associations := [(10, 1), (10, 2), (10, 3)] } (by rfl)
  exact ⟨h.2.2.1 (10, 1), h.2.2.2 [2, 3, 99]⟩

/-- Claim C10: a PUT to /other_info/{oldName} supplying a fresh non-null
new name rewrites the row's key in place — same id, same value — after
which the get, update and delete routes addressed by the old name answer
404 while a get by the new name finds exactly the renamed row.
Hypotheses: the row is found under the old name, no stored row carries the
new name, and stored names and ids are pairwise distinct (the table's
unique and primary-key constraints). -/
theorem c10_rename_rekeys_row (store : List OtherInfoRow) (importTime : Nat)
    (oldName newName : String) (info : OtherInfoRow)
    (store' : List OtherInfoRow) (row' : OtherInfoRow)
    (hfind : store.find? (fun r => r.name = oldName) = some info)
    (hnew : ∀ r ∈ store, r.name ≠ newName)
    (hnames : store.Pairwise (fun a b => a.name ≠ b.name))
    (hids : store.Pairwise (fun a b => a.id ≠ b.id))
    (hup : update_other_info store importTime oldName
      { name := some newName, value := none } = .ok (store', row')) :
    row'.id = info.id ∧ row'.value = info.value ∧ row'.name = newName ∧
    get_other_info store' oldName = .error (.http 404 "Information not found") ∧
    get_other_info store' newName = .ok row' ∧
    (∀ q, update_other_info store' importTime oldName q =
      .error (.http 404 "Information not found")) ∧
    delete_other_info store' oldName = .error (.http 404 "Information not found") := by
  have hmem : info ∈ store := List.mem_of_find?_eq_some hfind
  have hnamei : info.name = oldName := by
    have := List.find?_some hfind
    simpa using this
  have hne : oldName ≠ newName := by
    intro e
    exact hnew info hmem (hnamei.trans e)
  have happly : applyOtherInfoUpdate { name := some newName, value := none } info
      = { info with name := newName } := rfl
  have hne2 : applyOtherInfoUpdate { name := some newName, value := none } info ≠ info := by
    rw [happly]
    intro e
    have hn := congrArg OtherInfoRow.name e
    simp at hn
    exact hne (hn.trans hnamei).symm
  have hidu : ∀ r ∈ store, r.id = info.id → r = info := by
    intro r hr he
    by_contra hcontra
    exact (List.Pairwise.forall (fun a b h => (h ∘ Eq.symm : b.id ≠ a.id)) hids
      hr hmem hcontra) he
  have hnamu : ∀ r ∈ store, r.name = oldName → r = info := by
    intro r hr he
    by_contra hcontra
    exact (List.Pairwise.forall (fun a b h => (h ∘ Eq.symm : b.name ≠ a.name)) hnames
      hr hmem hcontra) (he.trans hnamei.symm)
  have hany : store.any (fun r => r.id ≠ info.id ∧
      r.name = (applyOtherInfoUpdate { name := some newName, value := none } info).name)
      = false := by
    rw [List.any_eq_false]
    intro r hr
    simp only [happly, decide_eq_true_eq]
    intro hand
    exact hnew r hr hand.2
  have hany' : ¬ (store.any (fun r => r.id ≠ info.id ∧
      r.name = (applyOtherInfoUpdate { name := some newName, value := none } info).name)
      = true) := by
    rw [hany]
    simp
  have hcalc : update_other_info store importTime oldName
      { name := some newName, value := none } =
      .ok (store.map (fun r => if r.id = info.id then
             { info with name := newName, updated_at := importTime } else r),
           { info with name := newName, updated_at := importTime }) := by
    unfold update_other_info
    split
    · next heq =>
      rw [hfind] at heq
      cases heq
    · next info2 heq =>
      rw [hfind] at heq
      injection heq with heq2
      subst heq2
      rw [if_neg hne2, if_neg hany']
      rfl
  rw [hcalc] at hup
  simp only [Except.ok.injEq, Prod.mk.injEq] at hup
  obtain ⟨hstore', hrow'⟩ := hup
  subst hstore'
  subst hrow'
  have hfind_old : (store.map (fun r => if r.id = info.id then
      { info with name := newName, updated_at := importTime } else r)).find?
      (fun r => r.name = oldName) = none := by
    rw [List.find?_eq_none]
    intro x hx
    obtain ⟨r, hr, hfx⟩ := List.mem_map.mp hx
    by_cases hid : r.id = info.id
    · rw [if_pos hid] at hfx
      rw [← hfx]
      simpa using hne.symm
    · rw [if_neg hid] at hfx
      rw [← hfx]
      intro hcx
      have : r = info := hnamu r hr (by simpa using hcx)
      exact hid (by rw [this])
  have hfind_new : (store.map (fun r => if r.id = info.id then
      { info with name := newName, updated_at := importTime } else r)).find?
      (fun r => r.name = newName) =
      some { info with name := newName, updated_at := importTime } := by
    apply find?_eq_some_of_unique
    · exact List.mem_map.mpr ⟨info, hmem, by rw [if_pos rfl]⟩
    · simp
    · intro x hx hpx
      obtain ⟨r, hr, hfx⟩ := List.mem_map.mp hx
      by_cases hid : r.id = info.id
      · rw [if_pos hid] at hfx
        exact hfx.symm
      · rw [if_neg hid] at hfx
        rw [← hfx] at hpx
        exact absurd (of_decide_eq_true hpx) (hnew r hr)
  refine ⟨rfl, rfl, rfl, ?_, ?_, ?_, ?_⟩
  · unfold get_other_info
    rw [hfind_old]
  · unfold get_other_info
    rw [hfind_new]
  · intro q
    unfold update_other_info
    rw [hfind_old]
  · unfold delete_other_info
    rw [hfind_old]

/-- Closed witness for C10: OtherInfo(id=1, name="tiktok", value="x") is
renamed to "instagram" (value untouched); afterwards the old key answers
404 on get, update and delete, and the new key finds the renamed row. -/
theorem c10_rename_rekeys_row_witness :
    ({ id := 1, name := "instagram", value := some "x", created_at := 0, updated_at := 5 } :
        OtherInfoRow).value = some "x" ∧
    get_other_info
        [{ id := 1, name := "instagram", value := some "x", created_at := 0, updated_at := 5 },
         { id := 2, name := "phone", value := some "123", created_at := 1, updated_at := 1 }]
        "tiktok" = .error (.http 404 "Information not found") ∧
    get_other_info
        [{ id := 1, name := "instagram", value := some "x", created_at := 0, updated_at := 5 },
         { id := 2, name := "phone", value := some "123", created_at := 1, updated_at := 1 }]
        "instagram" =
      .ok { id := 1, name := "instagram", value := some "x", created_at := 0, updated_at := 5 } ∧
    update_other_info
        [{ id := 1, name := "instagram", value := some "x", created_at := 0, updated_at := 5 },
         { id := 2, name := "phone", value := some "123", created_at := 1, updated_at := 1 }]
        5 "tiktok" { name := none, value := some "y" } =
      .error (.http 404 "Information not found") ∧
    delete_other_info
        [{ id := 1, name := "instagram", value := some "x", created_at := 0, updated_at := 5 },
         { id := 2, name := "phone", value := some "123", created_at := 1, updated_at := 1 }]
        "tiktok" = .error (.http 404 "Information not found") := by
  have h := c10_rename_rekeys_row
    [{ id := 1, name := "tiktok", value := some "x", created_at := 0, updated_at := 0 },
     { id := 2, name := "phone", value := some "123", created_at := 1, updated_at := 1 }]
    5 "tiktok" "instagram"
    { id := 1, name := "tiktok", value := some "x", created_at := 0, updated_at := 0 }
    [{ id := 1, name := "instagram", value := some "x", created_at := 0, updated_at := 5 },
     { id := 2, name := "phone", value := some "123", created_at := 1, updated_at := 1 }]
    { id := 1, name := "instagram", value := some "x", created_at := 0, updated_at := 5 }
    (by rfl) (by decide) (by decide) (by decide) (by rfl)
  exact ⟨h.2.1, h.2.2.2.1, h.2.2.2.2.1,
    h.2.2.2.2.2.1 { name := none, value := some "y" }, h.2.2.2.2.2.2⟩
